import Mathlib

/-
Verification development for the qiwis messaging / remote-call core
(file qiwis.py of the snu-quiqcl/qiwis repository).

The Python source is shallowly embedded as executable Lean definitions:

* `QiwisState` models the mutable fields of a `Qiwis` object that the
  claims concern: `_apps` (the registry, modelled by its ordered key
  list), `_subscribers` (a `defaultdict(set)`, modelled as a total
  function from channel name to subscriber list -- a missing dict key
  and a materialised key holding an empty set are observationally
  identical through every subscriber-set operation, so the model
  quotients by that distinction), and `_wrapperWidgets`
  (a `defaultdict(list)` of GUI wrapper widgets, modelled by the number
  of widgets per app; widget contents are Qt objects outside the core).
  Calls to the module-level `logger` are modelled by an append-only
  `log` field so that "logged, not raised" behaviour is provable.
* Python exceptions are modelled by the `PyError` type and `Except`;
  functions that mutate state before raising return the mutated state
  alongside the error, mirroring Python's in-place mutation.
* Python `repr(exception)` is modelled by `reprError`; the model prints
  `ClassName: message` (the exact quoting of CPython's repr is not
  reproduced, no claim compares the text against CPython output).
* JSON (de)serialisation (`json.dumps` / `json.loads` as used by
  `dumps` / `loads` in qiwis.py) is embedded as an executable printer
  and a fuel-indexed recursive-descent parser over the JSON fragment
  the protocol uses (floats and \u escapes are not modelled; no claim
  involves them).
-/

/-- Logging levels of the Python `logging` module used by qiwis.py. -/
inductive LogLevel where
  | debug
  | info
  | warning
  | error
  deriving DecidableEq

/-- One record emitted through `logger`; the message is the format string
with its `%s` arguments substituted (secondary format arguments that only
repeat an `AppInfo` are elided). -/
structure LogEntry where
  level : LogLevel
  msg : String
  deriving DecidableEq

/-- Python exception values that the embedded code can raise.  The last
constructor, `unembeddedAttr`, is not a CPython exception but a model
boundary sentinel: it marks a qiwiscall whose name `getattr` resolves to
a real attribute of the host object that lies outside the embedded
dispatch surface (see `getattrQiwis`); how the program continues there
(signature inspection, confirmation, invocation of Qt or GUI code) is
not modelled, and no theorem below constrains that branch. -/
inductive PyError where
  | jsonDecodeError (m : String)
  | typeError (m : String)
  | valueError (m : String)
  | attributeError (m : String)
  | keyError (k : String)
  | runtimeError (m : String)
  | unembeddedAttr (name : String)
  deriving DecidableEq

/-- Model of Python `repr(error)`: the string representation of the
exception (class name and message; CPython's quoting is not reproduced).
The `unembeddedAttr` sentinel is rendered with a non-Python tag; no
theorem asserts anything about its string. -/
def reprError : PyError → String
  | .jsonDecodeError m => "JSONDecodeError: " ++ m
  | .typeError m => "TypeError: " ++ m
  | .valueError m => "ValueError: " ++ m
  | .attributeError m => "AttributeError: " ++ m
  | .keyError k => "KeyError: " ++ k
  | .runtimeError m => "RuntimeError: " ++ m
  | .unembeddedAttr n => "ModelBoundary: " ++ n

/-- The `AppInfo` dataclass (a `Serializable`): information required to
create an app.  The `args` field (constructor keyword arguments consumed
only by the externally loaded app class) is outside the modelled core and
is elided; `show` is renamed `show_` (Lean keyword). -/
structure AppInfo where
  module : String
  cls : String
  path : String
  show_ : Bool
  pos : String
  channel : List String
  deriving DecidableEq

/-- Python values crossing the qiwiscall boundary: the JSON fragment used
by the protocol (`null`, booleans, integers, strings, arrays, objects)
plus two run-time-only values: a live `Serializable` dataclass instance
(`info`, the repository's `AppInfo`) and a Python `set` of strings
(`pyset`, the return type of `Qiwis.subscriberNames`).  The latter two
are not JSON-serialisable, exactly as in Python. -/
inductive PyVal where
  | null
  | bool (b : Bool)
  | num (n : Int)
  | str (s : String)
  | list (xs : List PyVal)
  | dict (kvs : List (String × PyVal))
  | info (i : AppInfo)
  | pyset (xs : List String)

/-- The `QiwiscallInfo` dataclass: a qiwiscall request with the call name
and its keyword arguments. -/
structure QiwiscallInfo where
  call : String
  args : List (String × PyVal)

/-- The `QiwiscallResult` dataclass: result data of a qiwiscall. -/
structure QiwiscallResult where
  done : Bool
  success : Bool
  value : PyVal
  error : Option String

/-- The registry / bus state of a `Qiwis` object (see the header comment
for the correspondence with `_apps`, `_subscribers`, `_wrapperWidgets`
and `logger`). -/
structure QiwisState where
  apps : List String
  subs : String → List String
  wrappers : String → Nat
  log : List LogEntry

/-- Pointwise update of a string-indexed map (dict item assignment). -/
def updateFn {α : Type} (f : String → α) (k : String) (v : α) : String → α :=
  fun x => if x = k then v else f x

namespace Qiwis

/-- `Qiwis.subscribe`: starts a subscription of the app to the channel.
Subscribing twice is a logged no-op (`logger.warning`); otherwise the app
is added to the channel's subscriber set. -/
def subscribe (st : QiwisState) (app channel : String) : QiwisState :=
  if app ∈ st.subs channel then
    { st with log := st.log ++
        [⟨.warning, "The app " ++ app ++ " already subscribes to " ++ channel⟩] }
  else
    { st with
      subs := updateFn st.subs channel (st.subs channel ++ [app]),
      log := st.log ++
        [⟨.info, "The app " ++ app ++ " now subscribes to " ++ channel⟩] }

/-- `Qiwis.unsubscribe`: cancels the subscription of the app to the
channel.  The Python body wraps `set.remove` in `try/except KeyError`:
if the app was not a subscriber it logs an error and returns `False`,
otherwise it removes the app and returns `True`. -/
def unsubscribe (st : QiwisState) (app channel : String) : QiwisState × Bool :=
  if app ∈ st.subs channel then
    ({ st with
        subs := updateFn st.subs channel ((st.subs channel).erase app),
        log := st.log ++
          [⟨.info, "The app " ++ app ++ " unsubscribed from " ++ channel⟩] }, true)
  else
    ({ st with log := st.log ++
        [⟨.error, "The app " ++ app ++ " tried to unsubscribe from " ++ channel ++
          ", which it does not subscribe to"⟩] }, false)

/-- `Qiwis.destroyApp`: destroys an app.  In source order it (1) calls
`removeFrame` over the app's wrapper-widget list and then `del`s the
key -- the for-loop iterates the very list that `removeFrame` mutates
(`wrapperWidgets` aliases `self._wrapperWidgets[name]`), so with `n`
widgets only every other one, `(n + 1) / 2` of them, is passed to
`removeFrame` (and logged) before `del` clears the key; the net
bookkeeping reset of that key is the same -- then (2) discards the name
from every channel's subscriber set, and only then (3) pops the app
from `_apps`, which raises `KeyError` when the name is unknown -- after
the mutations of steps 1 and 2 have already happened. -/
def destroyApp (st : QiwisState) (name : String) : QiwisState × Except PyError Unit :=
  let st1 : QiwisState :=
    { st with
      wrappers := updateFn st.wrappers name 0,
      log := st.log ++
        List.replicate ((st.wrappers name + 1) / 2)
          ⟨.info, "Removed a frame from the app " ++ name⟩ }
  let st2 : QiwisState := { st1 with subs := fun c => (st1.subs c).erase name }
  if name ∈ st2.apps then
    ({ st2 with
        apps := st2.apps.erase name,
        log := st2.log ++ [⟨.info, "Destroyed the app " ++ name⟩] }, .ok ())
  else
    (st2, .error (.keyError name))

/-- The creation path of `Qiwis.createApp` once the duplicate-name check
has passed: the dynamic code loader (import plus class instantiation,
an external collaborator) is modelled as succeeding and yielding an app
exposing `frames` wrapper frames; the app is subscribed to each channel
of its `AppInfo`, its frames are added, and it is registered in `_apps`. -/
def createAppFresh (st : QiwisState) (name : String) (info : AppInfo)
    (frames : Nat) : QiwisState :=
  let st1 : QiwisState := info.channel.foldl (fun s ch => subscribe s name ch) st
  let st2 : QiwisState :=
    { st1 with
      wrappers := updateFn st1.wrappers name (st1.wrappers name + frames),
      log := st1.log ++
        List.replicate frames ⟨.info, "Added a frame to the app " ++ name⟩ }
  { st2 with
    apps := st2.apps ++ [name],
    log := st2.log ++ [⟨.info, "Created an app " ++ name⟩] }

/-- `Qiwis.createApp`: creates an app.  When the name already exists and
`replace` is false the call logs `logger.error` and returns normally
(no exception of any kind is raised and nothing is created); when
`replace` is true the existing app is destroyed first.  The `Except`
component mirrors Python's ability to raise out of the method; within
the modelled core (external loader modelled as succeeding) every path
returns `ok`. -/
def createApp (st : QiwisState) (name : String) (info : AppInfo)
    (replace : Bool) (frames : Nat) : QiwisState × Except PyError Unit :=
  if name ∈ st.apps then
    if replace then
      (createAppFresh (destroyApp st name).1 name info frames, .ok ())
    else
      ({ st with log := st.log ++
          [⟨.error, "The app " ++ name ++ " already exists."⟩] }, .ok ())
  else
    (createAppFresh st name info frames, .ok ())

end Qiwis

/-- C7: for every app `a` and channel `c` with `a` not in `c`'s
subscriber set, `unsubscribe a c` returns `false` and leaves the state
unchanged apart from the logged error (in particular every channel's
subscriber set, the registry and the widget bookkeeping are unchanged);
when `a` is a subscriber it is removed (exactly `a` is erased from `c`'s
set, no other channel changes) and `true` is returned. -/
theorem C7_unsubscribe_safety (st : QiwisState) (a c : String) :
    (a ∉ st.subs c →
      Qiwis.unsubscribe st a c =
        ({ st with log := st.log ++
            [⟨.error, "The app " ++ a ++ " tried to unsubscribe from " ++ c ++
              ", which it does not subscribe to"⟩] }, false)) ∧
    (a ∈ st.subs c →
      (Qiwis.unsubscribe st a c).2 = true ∧
      (Qiwis.unsubscribe st a c).1.subs c = (st.subs c).erase a ∧
      ((st.subs c).Nodup → a ∉ (Qiwis.unsubscribe st a c).1.subs c) ∧
      (∀ c', c' ≠ c → (Qiwis.unsubscribe st a c).1.subs c' = st.subs c') ∧
      (Qiwis.unsubscribe st a c).1.apps = st.apps ∧
      (Qiwis.unsubscribe st a c).1.wrappers = st.wrappers) := by
  constructor
  · intro h
    simp only [Qiwis.unsubscribe, if_neg h]
  · intro h
    have hkey : Qiwis.unsubscribe st a c =
        ({ st with
            subs := updateFn st.subs c ((st.subs c).erase a),
            log := st.log ++
              [⟨.info, "The app " ++ a ++ " unsubscribed from " ++ c⟩] }, true) := by
      simp only [Qiwis.unsubscribe, if_pos h]
    rw [hkey]
    refine ⟨rfl, ?_, ?_, ?_, rfl, rfl⟩
    · simp [updateFn]
    · intro hnd
      simpa [updateFn] using hnd.not_mem_erase
    · intro c' hc'
      simp [updateFn, hc']

/-- Witness for C7 at a concrete state: channel `ch` has subscribers
`[a1]`; unsubscribing `a2` returns `false` and changes nothing but the
log, and unsubscribing `a1` returns `true` and removes it. -/
theorem C7_unsubscribe_safety_witness :
    ("a2" ∉ ["a1"] ∧
      (Qiwis.unsubscribe ⟨["a1"], fun c => if c = "ch" then ["a1"] else [],
        fun _ => 0, []⟩ "a2" "ch").2 = false) ∧
    ("a1" ∈ ["a1"] ∧
      (Qiwis.unsubscribe ⟨["a1"], fun c => if c = "ch" then ["a1"] else [],
        fun _ => 0, []⟩ "a1" "ch").2 = true ∧
      (Qiwis.unsubscribe ⟨["a1"], fun c => if c = "ch" then ["a1"] else [],
        fun _ => 0, []⟩ "a1" "ch").1.subs "ch" = []) := by
  have h2 := C7_unsubscribe_safety
    ⟨["a1"], fun c => if c = "ch" then ["a1"] else [], fun _ => 0, []⟩ "a2" "ch"
  have h1 := C7_unsubscribe_safety
    ⟨["a1"], fun c => if c = "ch" then ["a1"] else [], fun _ => 0, []⟩ "a1" "ch"
  refine ⟨⟨by decide, ?_⟩, ⟨by decide, ?_, ?_⟩⟩
  · rw [h2.1 (by decide)]
  · exact (h1.2 (by decide)).1
  · rw [(h1.2 (by decide)).2.1]
    decide

/-- C8: subscribing an app to a channel twice yields the same subscriber
set (for every channel, in particular `c`) as subscribing once; the
second call only appends a warning to the log and touches nothing else. -/
theorem C8_subscribe_idempotent (st : QiwisState) (a c : String) :
    (∀ ch, (Qiwis.subscribe (Qiwis.subscribe st a c) a c).subs ch =
      (Qiwis.subscribe st a c).subs ch) ∧
    (Qiwis.subscribe (Qiwis.subscribe st a c) a c).apps =
      (Qiwis.subscribe st a c).apps ∧
    (Qiwis.subscribe (Qiwis.subscribe st a c) a c).wrappers =
      (Qiwis.subscribe st a c).wrappers ∧
    (Qiwis.subscribe (Qiwis.subscribe st a c) a c).log =
      (Qiwis.subscribe st a c).log ++
        [⟨.warning, "The app " ++ a ++ " already subscribes to " ++ c⟩] := by
  have hmem : a ∈ (Qiwis.subscribe st a c).subs c := by
    by_cases h : a ∈ st.subs c
    · simpa [Qiwis.subscribe, if_pos h] using h
    · simp [Qiwis.subscribe, if_neg h, updateFn]
  have hkey : Qiwis.subscribe (Qiwis.subscribe st a c) a c =
      { Qiwis.subscribe st a c with log := (Qiwis.subscribe st a c).log ++
          [⟨.warning, "The app " ++ a ++ " already subscribes to " ++ c⟩] } := by
    conv_lhs => rw [Qiwis.subscribe]
    rw [if_pos hmem]
  rw [hkey]
  exact ⟨fun ch => rfl, rfl, rfl, rfl⟩

/-- C9 counterexample: the claim "destroyApp(name) on a name not in the
registry ... leaves the registry and subscriber state uncorrupted
(unchanged)" fails when the unknown name still sits in a subscriber set
(reachable, since `subscribe` accepts any app string): the discard loop
runs before `_apps.pop(name)` raises, so the stray subscription of `x`
to channel `ch` is removed even though the call fails with the
`KeyError` (NotFoundError). -/
theorem C9_counterexample :
    (Qiwis.destroyApp
        ⟨[], fun c => if c = "ch" then ["x"] else [], fun _ => 0, []⟩ "x").2 =
      Except.error (PyError.keyError "x") ∧
    (Qiwis.destroyApp
        ⟨[], fun c => if c = "ch" then ["x"] else [], fun _ => 0, []⟩ "x").1.subs "ch" = [] ∧
    (⟨[], fun c => if c = "ch" then ["x"] else [], fun _ => 0, []⟩ : QiwisState).subs "ch" =
      ["x"] :=
  ⟨rfl, rfl, rfl⟩

/-- C9 (amended): `destroyApp` on a live app succeeds and removes the
name from the registry and from every channel's subscriber set;
`destroyApp` on an unknown name fails with a `KeyError`
(NotFoundError class) and leaves the registry unchanged, and it leaves
the subscriber state unchanged whenever the name is in no channel's
subscriber set (in particular when the app never subscribed, or was
already destroyed); an unknown name's stray subscriptions are discarded
before the error is raised.  The `Nodup` hypotheses are the set
invariants of the Python `dict` / `set` representations. -/
theorem C9_destroyApp (st : QiwisState) (name : String) :
    (name ∈ st.apps → st.apps.Nodup →
      (Qiwis.destroyApp st name).2 = Except.ok () ∧
      name ∉ (Qiwis.destroyApp st name).1.apps ∧
      (∀ c, (st.subs c).Nodup → name ∉ (Qiwis.destroyApp st name).1.subs c)) ∧
    (name ∉ st.apps →
      (Qiwis.destroyApp st name).2 = Except.error (PyError.keyError name) ∧
      (Qiwis.destroyApp st name).1.apps = st.apps ∧
      (∀ c, (Qiwis.destroyApp st name).1.subs c = (st.subs c).erase name) ∧
      (∀ c, name ∉ st.subs c → (Qiwis.destroyApp st name).1.subs c = st.subs c)) := by
  constructor
  · intro h hnd
    refine ⟨?_, ?_, ?_⟩
    · simp [Qiwis.destroyApp, h]
    · simpa [Qiwis.destroyApp, h] using hnd.not_mem_erase
    · intro c hc
      simpa [Qiwis.destroyApp, h] using hc.not_mem_erase
  · intro h
    refine ⟨?_, ?_, ?_, ?_⟩
    · simp [Qiwis.destroyApp, h]
    · simp [Qiwis.destroyApp, h]
    · intro c
      simp [Qiwis.destroyApp, h]
    · intro c hc
      simp [Qiwis.destroyApp, h, List.erase_of_not_mem hc]

/-- Witness for C9 at concrete states: destroying the live app `a`
removes it from the registry and from channel `ch`; destroying it a
second time fails with the `KeyError` and changes nothing. -/
theorem C9_destroyApp_witness :
    ("a" ∈ ["a"] ∧ ([("a" : String)]).Nodup ∧
      (Qiwis.destroyApp ⟨["a"], fun c => if c = "ch" then ["a"] else [],
        fun _ => 0, []⟩ "a").2 = Except.ok () ∧
      "a" ∉ (Qiwis.destroyApp ⟨["a"], fun c => if c = "ch" then ["a"] else [],
        fun _ => 0, []⟩ "a").1.apps) ∧
    ("b" ∉ (["a"] : List String) ∧
      (Qiwis.destroyApp ⟨["a"], fun c => if c = "ch" then ["a"] else [],
        fun _ => 0, []⟩ "b").2 = Except.error (PyError.keyError "b") ∧
      (Qiwis.destroyApp ⟨["a"], fun c => if c = "ch" then ["a"] else [],
        fun _ => 0, []⟩ "b").1.apps = ["a"] ∧
      (Qiwis.destroyApp ⟨["a"], fun c => if c = "ch" then ["a"] else [],
        fun _ => 0, []⟩ "b").1.subs "ch" = ["a"]) := by
  have hlive := (C9_destroyApp
    ⟨["a"], fun c => if c = "ch" then ["a"] else [], fun _ => 0, []⟩ "a").1
    (by decide) (by decide)
  have hdead := (C9_destroyApp
    ⟨["a"], fun c => if c = "ch" then ["a"] else [], fun _ => 0, []⟩ "b").2
    (by decide)
  refine ⟨⟨by decide, by decide, hlive.1, hlive.2.1⟩,
    ⟨by decide, hdead.1, by rw [hdead.2.1], ?_⟩⟩
  rw [hdead.2.2.2 "ch" (by decide)]
  rfl

/-- C1 counterexample: the claim "createApp(name, info) called without
the replace option fails with a DuplicateNameError" fails on the code:
with the name already registered and `replace` false, `createApp`
raises nothing and returns normally (Python returns `None` after
`logger.error`), leaving the existing app in place. -/
theorem C1_counterexample :
    (Qiwis.createApp ⟨["a"], fun _ => [], fun _ => 0, []⟩ "a"
      ⟨"mod", "Cls", ".", true, "", []⟩ false 0).2 = Except.ok () ∧
    (Qiwis.createApp ⟨["a"], fun _ => [], fun _ => 0, []⟩ "a"
      ⟨"mod", "Cls", ".", true, "", []⟩ false 0).1.apps = ["a"] :=
  ⟨rfl, rfl⟩

/-- C1 (amended): for a name already in the registry, `createApp`
without the replace option logs an error and returns normally -- no
exception (no DuplicateNameError-like failure) is raised and the state
is unchanged apart from that log entry, so the existing app is kept;
when `replace` is given, the existing app is destroyed first (that
destruction succeeds) and the new app is then created in its place. -/
theorem C1_createApp_duplicate (st : QiwisState) (name : String)
    (info : AppInfo) (frames : Nat) :
    name ∈ st.apps →
    (Qiwis.createApp st name info false frames =
      ({ st with log := st.log ++
          [⟨.error, "The app " ++ name ++ " already exists."⟩] }, Except.ok ())) ∧
    (Qiwis.destroyApp st name).2 = Except.ok () ∧
    Qiwis.createApp st name info true frames =
      (Qiwis.createAppFresh (Qiwis.destroyApp st name).1 name info frames,
        Except.ok ()) ∧
    name ∈ (Qiwis.createApp st name info true frames).1.apps := by
  intro h
  refine ⟨?_, ?_, ?_, ?_⟩
  · simp [Qiwis.createApp, h]
  · simp [Qiwis.destroyApp, h]
  · simp [Qiwis.createApp, h]
  · simp [Qiwis.createApp, h, Qiwis.createAppFresh]

/-- Witness for C1 at a concrete state: the registry holds `a`; creating
`a` again without replace only logs, while creating it with replace
yields a registry that again holds exactly `a` (destroyed, then created
in its place). -/
theorem C1_createApp_duplicate_witness :
    "a" ∈ ["a"] ∧
    Qiwis.createApp ⟨["a"], fun _ => [], fun _ => 0, []⟩ "a"
      ⟨"m", "C", ".", true, "", []⟩ false 0 =
      ({ apps := ["a"], subs := fun _ => [], wrappers := fun _ => 0,
         log := [⟨.error, "The app a already exists."⟩] }, Except.ok ()) ∧
    "a" ∈ (Qiwis.createApp ⟨["a"], fun _ => [], fun _ => 0, []⟩ "a"
      ⟨"m", "C", ".", true, "", []⟩ true 0).1.apps := by
  have h := C1_createApp_duplicate ⟨["a"], fun _ => [], fun _ => 0, []⟩ "a"
    ⟨"m", "C", ".", true, "", []⟩ 0 (by decide)
  exact ⟨by decide, by rw [h.1]; rfl, h.2.2.2⟩

/-- JSON escape for one character as produced by `json.dumps` (the
common escapes; \uXXXX escapes for other control characters are outside
the modelled fragment). -/
def escapeChar : Char → String
  | '"' => "\\\""
  | '\\' => "\\\\"
  | '\n' => "\\n"
  | '\t' => "\\t"
  | '\r' => "\\r"
  | c => String.singleton c

/-- JSON string quoting as produced by `json.dumps`. -/
def jsonQuote (s : String) : String :=
  "\"" ++ String.join (s.toList.map escapeChar) ++ "\""

/-
Serialisation of the modelled Python values by `json.dumps` with its
default separators.  Returns `none` exactly where `json.dumps` raises
`TypeError`: on a live dataclass instance and on a Python `set`.
-/
mutual

def dumpsVal : PyVal → Option String
  | .null => some "null"
  | .bool true => some "true"
  | .bool false => some "false"
  | .num n => some (toString n)
  | .str s => some (jsonQuote s)
  | .list xs =>
    match dumpsElems xs with
    | some ss => some ("[" ++ String.intercalate ", " ss ++ "]")
    | none => none
  | .dict kvs =>
    match dumpsPairs kvs with
    | some ss => some ("\x7b" ++ String.intercalate ", " ss ++ "\x7d")
    | none => none
  | .info _ => none
  | .pyset _ => none

def dumpsElems : List PyVal → Option (List String)
  | [] => some []
  | v :: vs =>
    match dumpsVal v, dumpsElems vs with
    | some s, some ss => some (s :: ss)
    | _, _ => none

def dumpsPairs : List (String × PyVal) → Option (List String)
  | [] => some []
  | (k, v) :: kvs =>
    match dumpsVal v, dumpsPairs kvs with
    | some s, some ss => some ((jsonQuote k ++ ": " ++ s) :: ss)
    | _, _ => none

end

/-- The module-level `dumps` applied to an `AppInfo` dataclass:
`json.dumps(dataclasses.asdict(info))` in field order; the elided `args`
field is printed as its default `None`. -/
def dumpsAppInfo (i : AppInfo) : String :=
  "\x7b\"module\": " ++ jsonQuote i.module ++
  ", \"cls\": " ++ jsonQuote i.cls ++
  ", \"path\": " ++ jsonQuote i.path ++
  ", \"show\": " ++ (if i.show_ then "true" else "false") ++
  ", \"pos\": " ++ jsonQuote i.pos ++
  ", \"channel\": [" ++ String.intercalate ", " (i.channel.map jsonQuote) ++
  "], \"args\": null\x7d"

/-- The module-level `dumps` applied to a `QiwiscallInfo` dataclass:
the canonical serialised envelope string that doubles as the correlation
token.  `none` when an argument value is not JSON-serialisable
(`json.dumps` raises `TypeError`). -/
def dumpsInfo (i : QiwiscallInfo) : Option String :=
  match dumpsVal (.dict i.args) with
  | some a => some ("\x7b\"call\": " ++ jsonQuote i.call ++ ", \"args\": " ++ a ++ "\x7d")
  | none => none

/-- The module-level `dumps` applied to a `QiwiscallResult` dataclass.
`none` when the `value` field is not JSON-serialisable (`json.dumps`
raises `TypeError`). -/
def dumpsResult (r : QiwiscallResult) : Option String :=
  match dumpsVal r.value with
  | some v => some ("\x7b\"done\": " ++ (if r.done then "true" else "false") ++
      ", \"success\": " ++ (if r.success then "true" else "false") ++
      ", \"value\": " ++ v ++
      ", \"error\": " ++ (match r.error with
        | none => "null"
        | some s => jsonQuote s) ++ "\x7d")
  | none => none

/-- JSON whitespace. -/
def isJsonWs (c : Char) : Bool :=
  c = ' ' || c = '\t' || c = '\n' || c = '\r'

/-- Skips leading JSON whitespace. -/
def skipWs : List Char → List Char
  | [] => []
  | c :: cs => if isJsonWs c then skipWs cs else c :: cs

/-- Inverse of `escapeChar` for the supported escape letters. -/
def unescapeChar (e : Char) : Option Char :=
  if e = 'n' then some '\n'
  else if e = 't' then some '\t'
  else if e = 'r' then some '\r'
  else if e = '"' then some '"'
  else if e = '\\' then some '\\'
  else if e = '/' then some '/'
  else if e = 'b' then some (Char.ofNat 0x08)
  else if e = 'f' then some (Char.ofNat 0x0c)
  else none

/-- Parses a JSON string body after the opening quote, returning the
decoded string and the remaining input. -/
def parseStringBody : List Char → String → Option (String × List Char)
  | [], _ => none
  | c :: cs, acc =>
    if c = '"' then some (acc, cs)
    else if c = '\\' then
      match cs with
      | [] => none
      | e :: cs' =>
        match unescapeChar e with
        | some ch => parseStringBody cs' (acc.push ch)
        | none => none
    else parseStringBody cs (acc.push c)

/-- Decimal digits to a natural number. -/
def digitsToNat (ds : List Char) : Nat :=
  ds.foldl (fun acc c => acc * 10 + (c.toNat - 48)) 0

/-- Parses a JSON integer (floats are outside the modelled fragment). -/
def parseIntFrom : List Char → Option (Int × List Char)
  | '-' :: rest =>
    let ds := rest.takeWhile Char.isDigit
    if ds.isEmpty then none
    else some (-(Int.ofNat (digitsToNat ds)), rest.drop ds.length)
  | cs =>
    let ds := cs.takeWhile Char.isDigit
    if ds.isEmpty then none
    else some (Int.ofNat (digitsToNat ds), cs.drop ds.length)

/-- Consumes the given literal characters. -/
def stripChars : List Char → List Char → Option (List Char)
  | [], cs => some cs
  | _ :: _, [] => none
  | p :: ps, c :: cs => if c = p then stripChars ps cs else none

/-- Python `dict` item assignment on an association list: an existing key
keeps its position and takes the new value, a new key is appended. -/
def dictInsert {β : Type} : List (String × β) → String → β → List (String × β)
  | [], k, v => [(k, v)]
  | (k', v') :: rest, k, v =>
    if k' = k then (k, v) :: rest else (k', v') :: dictInsert rest k v

/-- Association-list lookup (dict subscript / `dict.get`). -/
def lookupAssoc {β : Type} : List (String × β) → String → Option β
  | [], _ => none
  | (k, v) :: rest, key => if k = key then some v else lookupAssoc rest key

/-- Association-list key removal (`dict.pop` / `del`). -/
def removeAssoc {β : Type} : List (String × β) → String → List (String × β)
  | [], _ => []
  | (k, v) :: rest, key => if k = key then rest else (k, v) :: removeAssoc rest key

/-
Recursive-descent parser for the modelled JSON fragment, indexed by
fuel (one unit per input character suffices: every recursive call is
preceded by the consumption of at least one character).  Mirrors
`json.loads` on this fragment, including last-value-wins duplicate
object keys.
-/
mutual

def parseJson : Nat → List Char → Option (PyVal × List Char)
  | 0, _ => none
  | fuel + 1, cs =>
    match skipWs cs with
    | [] => none
    | c :: rest =>
      if c = '"' then
        match parseStringBody rest "" with
        | some (s, cs') => some (.str s, cs')
        | none => none
      else if c = '\x7b' then
        match skipWs rest with
        | '\x7d' :: cs' => some (.dict [], cs')
        | cs1 =>
          match parseMembers fuel cs1 [] with
          | some (kvs, cs') => some (.dict kvs, cs')
          | none => none
      else if c = '[' then
        match skipWs rest with
        | ']' :: cs' => some (.list [], cs')
        | cs1 =>
          match parseElems fuel cs1 [] with
          | some (xs, cs') => some (.list xs, cs')
          | none => none
      else if c = 't' then
        match stripChars ['r', 'u', 'e'] rest with
        | some cs' => some (.bool true, cs')
        | none => none
      else if c = 'f' then
        match stripChars ['a', 'l', 's', 'e'] rest with
        | some cs' => some (.bool false, cs')
        | none => none
      else if c = 'n' then
        match stripChars ['u', 'l', 'l'] rest with
        | some cs' => some (.null, cs')
        | none => none
      else
        match parseIntFrom (c :: rest) with
        | some (n, cs') => some (.num n, cs')
        | none => none

def parseMembers : Nat → List Char → List (String × PyVal) →
    Option (List (String × PyVal) × List Char)
  | 0, _, _ => none
  | fuel + 1, cs, acc =>
    match skipWs cs with
    | '"' :: rest =>
      match parseStringBody rest "" with
      | some (k, cs1) =>
        match skipWs cs1 with
        | ':' :: cs2 =>
          match parseJson fuel cs2 with
          | some (v, cs3) =>
            match skipWs cs3 with
            | ',' :: cs4 => parseMembers fuel cs4 (dictInsert acc k v)
            | '\x7d' :: cs4 => some (dictInsert acc k v, cs4)
            | _ => none
          | none => none
        | _ => none
      | none => none
    | _ => none

def parseElems : Nat → List Char → List PyVal → Option (List PyVal × List Char)
  | 0, _, _ => none
  | fuel + 1, cs, acc =>
    match parseJson fuel cs with
    | some (v, cs1) =>
      match skipWs cs1 with
      | ',' :: cs2 => parseElems fuel cs2 (acc ++ [v])
      | ']' :: cs2 => some (acc ++ [v], cs2)
      | _ => none
    | none => none

end

/-- Model of `json.loads`: parse the whole string, requiring nothing but
whitespace after the value; failures are `json.JSONDecodeError`. -/
def loadsJson (s : String) : Except PyError PyVal :=
  match parseJson (s.length + 1) s.toList with
  | some (v, rest) =>
    if (skipWs rest).isEmpty then .ok v
    else .error (.jsonDecodeError ("Extra data: " ++ s))
  | none => .error (.jsonDecodeError ("Expecting value: " ++ s))

/-- Conversion of a parsed JSON value into a `QiwiscallInfo`
(`QiwiscallInfo(**json.loads(msg))`).  Keys other than `call` / `args`
and a non-mapping top level raise `TypeError` in Python; a non-string
`call` or non-mapping `args` fails in Python only slightly later (at
`startswith` / `.items()`), which the model folds into the same
conversion step -- on every such input both the code and the model
resolve the qiwiscall as a failure result. -/
def jsonToInfo : PyVal → Except PyError QiwiscallInfo
  | .dict kvs =>
    if kvs.any (fun kv => !(kv.1 = "call" || kv.1 = "args")) then
      .error (.typeError "QiwiscallInfo got an unexpected keyword argument")
    else
      match lookupAssoc kvs "call" with
      | some (.str c) =>
        match lookupAssoc kvs "args" with
        | none => .ok ⟨c, []⟩
        | some (.dict args) => .ok ⟨c, args⟩
        | some _ => .error (.typeError "QiwiscallInfo args must be a mapping")
      | some _ => .error (.typeError "QiwiscallInfo call must be a string")
      | none => .error (.typeError "QiwiscallInfo missing required argument call")
  | _ => .error (.typeError "QiwiscallInfo arguments must be a mapping")

/-- The module-level `loads` at type `QiwiscallInfo`. -/
def loadsInfo (s : String) : Except PyError QiwiscallInfo :=
  match loadsJson s with
  | .ok v => jsonToInfo v
  | .error e => .error e

/-- Reads a parsed JSON array as a list of strings. -/
def asStrList : List PyVal → Option (List String)
  | [] => some []
  | .str s :: rest =>
    match asStrList rest with
    | some l => some (s :: l)
    | none => none
  | _ :: _ => none

/-- Conversion of a parsed JSON value into an `AppInfo`
(`AppInfo(**json.loads(s))`).  Unknown keys and a non-mapping top level
raise `TypeError`; missing `module` / `cls` raise `TypeError` (missing
required argument); the model additionally enforces the declared field
types (CPython dataclasses would accept ill-typed fields and fail later;
no claim involves such values).  The elided `args` key is accepted and
ignored. -/
def jsonToAppInfo : PyVal → Except PyError AppInfo
  | .dict kvs =>
    if kvs.any (fun kv => !(kv.1 = "module" || kv.1 = "cls" || kv.1 = "path" ||
        kv.1 = "show" || kv.1 = "pos" || kv.1 = "channel" || kv.1 = "args")) then
      .error (.typeError "AppInfo got an unexpected keyword argument")
    else
      match lookupAssoc kvs "module", lookupAssoc kvs "cls" with
      | some (.str m), some (.str c) =>
        let p : Option String := match lookupAssoc kvs "path" with
          | none => some "."
          | some (.str s) => some s
          | some _ => none
        let sh : Option Bool := match lookupAssoc kvs "show" with
          | none => some true
          | some (.bool b) => some b
          | some _ => none
        let po : Option String := match lookupAssoc kvs "pos" with
          | none => some ""
          | some (.str s) => some s
          | some _ => none
        let chs : Option (List String) := match lookupAssoc kvs "channel" with
          | none => some []
          | some (.list xs) => asStrList xs
          | some _ => none
        match p, sh, po, chs with
        | some p, some sh, some po, some chs => .ok ⟨m, c, p, sh, po, chs⟩
        | _, _, _, _ => .error (.typeError "AppInfo field has an unsupported type")
      | _, _ => .error (.typeError "AppInfo missing a required argument")
  | _ => .error (.typeError "AppInfo arguments must be a mapping")

/-- The module-level `loads` at type `AppInfo`. -/
def loadsAppInfo (s : String) : Except PyError AppInfo :=
  match loadsJson s with
  | .ok v => jsonToAppInfo v
  | .error e => .error e

/-- The public qiwiscall feature methods of `Qiwis` embedded in this
development (the targets of `getattr(self, info.call)`). -/
inductive HostMethod where
  | createApp
  | destroyApp
  | subscribe
  | unsubscribe
  | appNames
  | subscriberNames
  deriving DecidableEq

/-- The embedded dispatch table: the qiwiscall feature methods whose
behaviour this development follows end to end.  This is not the
attribute predicate of the host object -- that is `qiwisPublicAttrs` /
`getattrQiwis` below. -/
def lookupMethod (call : String) : Option HostMethod :=
  if call = "createApp" then some .createApp
  else if call = "destroyApp" then some .destroyApp
  else if call = "subscribe" then some .subscribe
  else if call = "unsubscribe" then some .unsubscribe
  else if call = "appNames" then some .appNames
  else if call = "subscriberNames" then some .subscriberNames
  else none

/-- The public (non-underscore) attribute surface of a `Qiwis` instance:
the qiwiscall feature methods, the further methods of the class
(`channelNames`, `updateFrames`, `load`, `addFrame`, `removeFrame`,
`setIconBackground`), the instance attributes set in `__init__`, and the
attributes inherited from PyQt5's `QObject` (with a couple of defensive
extras such as `connect`/`emit`).  Over-approximating this set is safe:
it only shrinks the domain of the genuine-AttributeError theorem for
claim C10, it can never make that theorem cover a resolvable name.
Underscore-prefixed and dunder attributes never reach `getattr`: the
private-marker check rejects them first. -/
def qiwisPublicAttrs : List String :=
  ["createApp", "destroyApp", "subscribe", "unsubscribe", "appNames",
   "subscriberNames",
   "channelNames", "updateFrames", "load", "addFrame", "removeFrame",
   "setIconBackground",
   "appInfos", "constants", "mainWindow", "centralWidget",
   "blockSignals", "childEvent", "children", "connect", "connectNotify",
   "customEvent", "deleteLater", "destroyed", "disconnect",
   "disconnectNotify", "dumpObjectInfo", "dumpObjectTree",
   "dynamicPropertyNames", "emit", "event", "eventFilter", "findChild",
   "findChildren", "inherits", "installEventFilter", "isSignalConnected",
   "isWidgetType", "isWindowType", "killTimer", "metaObject",
   "moveToThread", "objectName", "objectNameChanged", "parent",
   "property", "pyqtConfigure", "receivers", "removeEventFilter",
   "sender", "senderSignalIndex", "setObjectName", "setParent",
   "setProperty", "signalsBlocked", "startTimer", "staticMetaObject",
   "thread", "timerEvent", "tr"]

/-- The three possible outcomes of `getattr(self, info.call)` on a
`Qiwis` instance: a feature method of the embedded dispatch table, a
real attribute outside the embedded surface (getattr succeeds; the
continuation is not modelled), or no attribute at all (getattr raises
`AttributeError`). -/
inductive AttrLookup where
  | feature (m : HostMethod)
  | outside
  | missing
  deriving DecidableEq

/-- Models `getattr(self, info.call)` on a `Qiwis` instance. -/
def getattrQiwis (call : String) : AttrLookup :=
  match lookupMethod call with
  | some m => .feature m
  | none => if call ∈ qiwisPublicAttrs then .outside else .missing

/-- Every embedded dispatch-table entry is a real attribute: the table's
domain is contained in the host object's attribute surface. -/
theorem lookupMethod_mem_attrs (s : String) (m : HostMethod)
    (h : lookupMethod s = some m) : s ∈ qiwisPublicAttrs := by
  unfold lookupMethod at h
  split_ifs at h with h1 h2 h3 h4 h5 h6
  · subst h1; decide
  · subst h2; decide
  · subst h3; decide
  · subst h4; decide
  · subst h5; decide
  · subst h6; decide

/-- A name outside the attribute surface makes `getattr` raise
`AttributeError`. -/
theorem getattrQiwis_missing (s : String) (h : s ∉ qiwisPublicAttrs) :
    getattrQiwis s = .missing := by
  have hm : lookupMethod s = none := by
    cases hl : lookupMethod s with
    | none => rfl
    | some m => exact absurd (lookupMethod_mem_attrs s m hl) h
  simp [getattrQiwis, hm, h]

/-- The `inspect.signature` data `_parseArgs` consults: parameter names
in order, each tagged with whether its annotation is a `Serializable`
subclass (only `createApp`'s `info: AppInfo` is). -/
def methodParams : HostMethod → List (String × Bool)
  | .createApp => [("name", false), ("info", true), ("replace", false)]
  | .destroyApp => [("name", false)]
  | .subscribe => [("app", false), ("channel", false)]
  | .unsubscribe => [("app", false), ("channel", false)]
  | .appNames => []
  | .subscriberNames => [("channel", false)]

namespace Qiwis

/-- `Qiwis._parseArgs`: converts every argument whose declared parameter
type is `Serializable` from its JSON string to a live dataclass
instance; an argument name missing from the signature raises `KeyError`
(`signature.parameters[name]`), a non-string value for a `Serializable`
parameter raises `TypeError` inside `loads`. -/
def parseArgs (m : HostMethod) : List (String × PyVal) →
    Except PyError (List (String × PyVal))
  | [] => .ok []
  | (n, v) :: rest =>
    match lookupAssoc (methodParams m) n with
    | none => .error (.keyError n)
    | some true =>
      match v with
      | .str s =>
        match loadsAppInfo s with
        | .ok i =>
          match parseArgs m rest with
          | .ok r => .ok ((n, .info i) :: r)
          | .error e => .error e
        | .error e => .error e
      | _ => .error (.typeError "the JSON object must be str not PyVal")
    | some false =>
      match parseArgs m rest with
      | .ok r => .ok ((n, v) :: r)
      | .error e => .error e

/-- String argument extraction for the method bodies. -/
def getStrArg (args : List (String × PyVal)) (n : String) : Option String :=
  match lookupAssoc args n with
  | some (.str s) => some s
  | _ => none

/-- The invocation `call(**args)` for each embedded host method.
Missing required arguments raise `TypeError` as in Python; the model
also rejects argument values outside each parameter's used type (Python
would accept e.g. any hashable as a dict key; no claim involves such
calls).  For `createApp` through the gateway the externally loaded app
contributes no frames (`BaseApp.frames` returns `()`), and an absent
`replace` takes its default `False`.  `appNames` returns a tuple
(serialised as a JSON array, modelled by `list`); `subscriberNames`
returns a copy of the channel's Python `set` -- a value `json.dumps`
cannot serialise. -/
def invokeMethod (st : QiwisState) (m : HostMethod)
    (args : List (String × PyVal)) : QiwisState × Except PyError PyVal :=
  match m with
  | .createApp =>
    match getStrArg args "name", lookupAssoc args "info" with
    | some n, some (.info i) =>
      let replace : Option Bool := match lookupAssoc args "replace" with
        | none => some false
        | some (.bool b) => some b
        | some _ => none
      match replace with
      | some rep =>
        let p := createApp st n i rep 0
        (p.1, match p.2 with
          | .ok _ => .ok .null
          | .error e => .error e)
      | none => (st, .error (.typeError "createApp: unsupported argument type"))
    | _, _ => (st, .error (.typeError "createApp: missing or invalid arguments"))
  | .destroyApp =>
    match getStrArg args "name" with
    | some n =>
      let p := destroyApp st n
      (p.1, match p.2 with
        | .ok _ => .ok .null
        | .error e => .error e)
    | none => (st, .error (.typeError "destroyApp: missing or invalid arguments"))
  | .subscribe =>
    match getStrArg args "app", getStrArg args "channel" with
    | some a, some c => (subscribe st a c, .ok .null)
    | _, _ => (st, .error (.typeError "subscribe: missing or invalid arguments"))
  | .unsubscribe =>
    match getStrArg args "app", getStrArg args "channel" with
    | some a, some c =>
      let p := unsubscribe st a c
      (p.1, .ok (.bool p.2))
    | _, _ => (st, .error (.typeError "unsubscribe: missing or invalid arguments"))
  | .appNames => (st, .ok (.list (st.apps.map PyVal.str)))
  | .subscriberNames =>
    match getStrArg args "channel" with
    | some c => (st, .ok (.pyset (st.subs c)))
    | none =>
      (st, .error (.typeError "subscriberNames: missing or invalid arguments"))

end Qiwis

/-- The human operator's answer to the `QMessageBox.warning` confirmation
dialog (`QMessageBox.Ok` or `QMessageBox.Cancel`, the external
human-confirmation collaborator). -/
inductive Reply where
  | ok
  | cancel
  deriving DecidableEq

/-- Python `str.startswith`, over the character list (Lean's own
`String.startsWith` is byte-level and does not reduce in the kernel). -/
def pyStartsWith (s p : String) : Bool :=
  p.toList.isPrefixOf s.toList

namespace Qiwis

/-- `Qiwis._handleQiwiscall` (the leading underscore is dropped in the
Lean name): parses the message into a `QiwiscallInfo`, rejects private
call names (leading underscore) with `ValueError` before any attribute
lookup, resolves the call name (`getattr`), parses the arguments, shows
the confirmation dialog mentioning `sender`, and on `Ok` invokes the
method; on `Cancel` it raises `RuntimeError` without invoking anything.
The state is threaded so that mutations made before an exception
survive it, as in Python.  A name that `getattr` resolves but that lies
outside the embedded dispatch table yields the `unembeddedAttr` model
boundary sentinel (see `PyError`); no theorem below constrains that
branch. -/
def handleQiwiscall (st : QiwisState) (sender msg : String) (reply : Reply) :
    QiwisState × Except PyError PyVal :=
  match loadsInfo msg with
  | .error e => (st, .error e)
  | .ok info =>
    if pyStartsWith info.call "_" then
      (st, .error (.valueError "Only public method calls are allowed."))
    else
      match getattrQiwis info.call with
      | .missing =>
        (st, .error (.attributeError ("Qiwis object has no attribute " ++ info.call)))
      | .outside => (st, .error (.unembeddedAttr info.call))
      | .feature m =>
        match parseArgs m info.args with
        | .error e => (st, .error e)
        | .ok args =>
          match reply with
          | .ok => invokeMethod st m args
          | .cancel => (st, .error (.runtimeError "The user rejected the request."))

/-- The `isinstance(value, Serializable)` conversion in `_qiwiscall`:
a `Serializable` return value is serialised before being packed into
the result. -/
def serializeReturn : PyVal → PyVal
  | .info i => .str (dumpsAppInfo i)
  | v => v

/-- The result object `_qiwiscall` builds from the outcome of
`_handleQiwiscall`: `done` is always true; on success the (possibly
serialised) return value, on failure `repr(error)`. -/
def mkQiwiscallResult : Except PyError PyVal → QiwiscallResult
  | .error e => ⟨true, false, .null, some (reprError e)⟩
  | .ok v => ⟨true, true, serializeReturn v, none⟩

/-- `Qiwis._qiwiscall` (the leading underscore is dropped in the Lean
name): runs `_handleQiwiscall` under `try/except`, packages the outcome
into a `QiwiscallResult`, and executes
`self._apps[sender].qiwiscallReturned.emit(msg, dumps(result))`.
`ok (msg, out)` models that emission -- the serialised result delivered
to the sender keyed by the original envelope string; `error` models an
exception escaping the slot itself, which nothing in the source
catches: `KeyError` when `sender` is no longer in `_apps` (evaluated
first, Python evaluation order), else `TypeError` from `dumps` when the
result value is not JSON-serialisable.  The `logger` calls of this
method are not tracked (no claim depends on them). -/
def qiwiscall (st : QiwisState) (sender msg : String) (reply : Reply) :
    QiwisState × Except PyError (String × String) :=
  let p := handleQiwiscall st sender msg reply
  let res := mkQiwiscallResult p.2
  if sender ∈ p.1.apps then
    match dumpsResult res with
    | some out => (p.1, .ok (msg, out))
    | none => (p.1, .error (.typeError "Object of type set is not JSON serializable"))
  else
    (p.1, .error (.keyError sender))

end Qiwis

/-- The state of a `QiwiscallProxy` together with the `QiwiscallResult`
objects it has handed out.  Python aliases mutable result objects: the
model gives every handed-out object an identity -- its index into
`heap` -- so that in-place mutation and "which handle got resolved" are
expressible.  `results` is the pending-results table (`self.results`)
keyed by the serialised envelope and holding the handle; `emitted`
records the messages emitted through the `requested` signal. -/
structure ProxyState where
  heap : List QiwiscallResult
  results : List (String × Nat)
  emitted : List String
  log : List LogEntry

namespace QiwiscallProxy

/-- The argument pre-serialisation loop of the proxy closure: every
top-level `Serializable` argument value is replaced by its JSON string
(`dumps(arg)`). -/
def serializeArgs (args : List (String × PyVal)) : List (String × PyVal) :=
  args.map (fun kv => match kv.2 with
    | .info i => (kv.1, PyVal.str (dumpsAppInfo i))
    | v => (kv.1, v))

/-- The closure returned by `QiwiscallProxy.__getattr__(call)`, invoked
with keyword arguments: serialises `Serializable` arguments, builds the
envelope, creates a fresh pending `QiwiscallResult` (`done=False`,
`success=False`), stores it in `results` keyed by the serialised
envelope (overwriting, with a logged warning, any pending entry under
the same key), emits the envelope, and returns the handle immediately.
`error` models `dumps(info)` raising `TypeError` on an argument that is
not JSON-serialisable -- in that case nothing is stored or emitted and
the exception reaches the caller (the fresh result object of that path
is unreferenced garbage and is not modelled). -/
def proxyCall (ps : ProxyState) (call : String) (args : List (String × PyVal)) :
    ProxyState × Except PyError Nat :=
  let info : QiwiscallInfo := ⟨call, serializeArgs args⟩
  match dumpsInfo info with
  | none => (ps, .error (.typeError "Object is not JSON serializable"))
  | some msg =>
    let dupLog : List LogEntry :=
      match lookupAssoc ps.results msg with
      | some _ => [⟨.warning, "Duplicate qiwiscall request: " ++ msg ++
          ", the new result overwrites the previous one"⟩]
      | none => []
    ({ heap := ps.heap ++ [⟨false, false, .null, none⟩],
       results := dictInsert ps.results msg ps.heap.length,
       emitted := ps.emitted ++ [msg],
       log := ps.log ++ dupLog }, .ok ps.heap.length)

/-- `QiwiscallProxy.update_result`: looks the request up in the pending
table (`pop` when `discard`, `get` otherwise); when absent it logs an
error and does nothing; when present it copies the received fields into
the stored result object in place (so outstanding references observe
the resolution) and, when `discard`, the entry has been removed. -/
def update_result (ps : ProxyState) (request : String)
    (result : QiwiscallResult) (discard : Bool) : ProxyState :=
  match lookupAssoc ps.results request with
  | none =>
    { ps with log := ps.log ++
        [⟨.error, "Failed to find a result for request: " ++ request⟩] }
  | some h =>
    { ps with
      results := if discard then removeAssoc ps.results request else ps.results,
      heap := ps.heap.set h ⟨result.done, result.success, result.value, result.error⟩,
      log := ps.log ++ [⟨.debug, "Qiwiscall result is updated"⟩] }

end QiwiscallProxy

/-- Inserting a key makes it present with the inserted value. -/
theorem lookupAssoc_dictInsert_self {β : Type} (l : List (String × β))
    (k : String) (v : β) : lookupAssoc (dictInsert l k v) k = some v := by
  induction l with
  | nil => simp [dictInsert, lookupAssoc]
  | cons kv rest ih =>
    by_cases h : kv.1 = k
    · simp [dictInsert, h, lookupAssoc]
    · simp [dictInsert, h, lookupAssoc, ih]

/-- The element appended at the end of a list sits at index `l.length`. -/
theorem get_append_singleton {α : Type} (l : List α) (a : α) :
    (l ++ [a]).get? l.length = some a := by
  induction l with
  | nil => rfl
  | cons x xs ih => simpa using ih

/-- `List.set` writes the given value at an in-range index. -/
theorem get_set_self {α : Type} (l : List α) (i : Nat) (a : α)
    (h : i < l.length) : (l.set i a).get? i = some a := by
  induction l generalizing i with
  | nil => simp at h
  | cons x xs ih =>
    cases i with
    | zero => rfl
    | succ n =>
      simp only [List.set, List.get?]
      exact ih n (by simpa using h)

/-- `List.set` leaves every other index unchanged. -/
theorem get_set_other {α : Type} (l : List α) (i j : Nat) (a : α)
    (h : i ≠ j) : (l.set i a).get? j = l.get? j := by
  induction l generalizing i j with
  | nil => rfl
  | cons x xs ih =>
    cases i with
    | zero =>
      cases j with
      | zero => exact absurd rfl h
      | succ m => rfl
    | succ n =>
      cases j with
      | zero => rfl
      | succ m =>
        simp only [List.set, List.get?]
        exact ih n m (by omega)

/-- The serialised failure `QiwiscallResult` delivered for a private-call
rejection: `done=true`, `success=false`, the `ValueError` repr as error. -/
def privateRejectMsg : String :=
  (dumpsResult ⟨true, false, .null,
    some (reprError (.valueError "Only public method calls are allowed."))⟩).getD ""

/-- C4: a host-call envelope whose call name begins with an underscore is
rejected with `ValueError` before any attribute lookup -- no host method
is executed and the state is untouched -- and the sender receives the
serialised Call Result with `done=true` and `success=false`, keyed by
the original envelope string. -/
theorem C4_private_call_rejected (st : QiwisState) (sender msg : String)
    (reply : Reply) (info : QiwiscallInfo)
    (hload : loadsInfo msg = Except.ok info)
    (hpriv : pyStartsWith info.call "_" = true)
    (hsender : sender ∈ st.apps) :
    Qiwis.handleQiwiscall st sender msg reply =
      (st, Except.error (PyError.valueError "Only public method calls are allowed.")) ∧
    Qiwis.qiwiscall st sender msg reply = (st, Except.ok (msg, privateRejectMsg)) := by
  have h1 : Qiwis.handleQiwiscall st sender msg reply =
      (st, Except.error (PyError.valueError "Only public method calls are allowed.")) := by
    simp only [Qiwis.handleQiwiscall, hload, hpriv, if_true]
  refine ⟨h1, ?_⟩
  simp only [Qiwis.qiwiscall, h1]
  rw [if_pos hsender]
  rfl

/-- Witness for C4: a concrete `_private` call through the full gateway
at a live sender. -/
theorem C4_private_call_rejected_witness :
    loadsInfo ((dumpsInfo ⟨"_private", []⟩).getD "") = Except.ok ⟨"_private", []⟩ ∧
    (pyStartsWith "_private" "_" = true) ∧
    "a" ∈ ["a"] ∧
    Qiwis.qiwiscall ⟨["a"], fun _ => [], fun _ => 0, []⟩ "a"
      ((dumpsInfo ⟨"_private", []⟩).getD "") .ok =
      (⟨["a"], fun _ => [], fun _ => 0, []⟩,
        Except.ok ((dumpsInfo ⟨"_private", []⟩).getD "", privateRejectMsg)) := by
  refine ⟨rfl, rfl, by decide, ?_⟩
  exact (C4_private_call_rejected ⟨["a"], fun _ => [], fun _ => 0, []⟩ "a"
    ((dumpsInfo ⟨"_private", []⟩).getD "") .ok ⟨"_private", []⟩ rfl rfl (by decide)).2

/-- C5: when the confirmation dialog is answered `Cancel` on a call that
reached the confirmation step (well-formed envelope, public resolvable
name, arguments parsed), `_handleQiwiscall` raises `RuntimeError` and
the resolved host method is never invoked: the registry / bus state is
returned unchanged. -/
theorem C5_rejected_confirmation (st : QiwisState) (sender msg : String)
    (info : QiwiscallInfo) (m : HostMethod) (args : List (String × PyVal))
    (hload : loadsInfo msg = Except.ok info)
    (hpub : pyStartsWith info.call "_" = false)
    (hm : lookupMethod info.call = some m)
    (hargs : Qiwis.parseArgs m info.args = Except.ok args) :
    Qiwis.handleQiwiscall st sender msg .cancel =
      (st, Except.error (PyError.runtimeError "The user rejected the request.")) := by
  have hga : getattrQiwis info.call = AttrLookup.feature m := by
    simp [getattrQiwis, hm]
  simp only [Qiwis.handleQiwiscall, hload, hpub, hga, hargs, Bool.false_eq_true,
    if_false]

/-- Witness for C5: a rejected `destroyApp` request leaves the registry
holding the app it asked to destroy. -/
theorem C5_rejected_confirmation_witness :
    loadsInfo ((dumpsInfo ⟨"destroyApp", [("name", .str "a")]⟩).getD "") =
      Except.ok ⟨"destroyApp", [("name", .str "a")]⟩ ∧
    (pyStartsWith "destroyApp" "_" = false) ∧
    lookupMethod "destroyApp" = some .destroyApp ∧
    Qiwis.parseArgs .destroyApp [("name", .str "a")] =
      Except.ok [("name", .str "a")] ∧
    Qiwis.handleQiwiscall ⟨["a"], fun _ => [], fun _ => 0, []⟩ "a"
      ((dumpsInfo ⟨"destroyApp", [("name", .str "a")]⟩).getD "") .cancel =
      (⟨["a"], fun _ => [], fun _ => 0, []⟩,
        Except.error (PyError.runtimeError "The user rejected the request.")) := by
  refine ⟨rfl, rfl, rfl, rfl, ?_⟩
  exact C5_rejected_confirmation ⟨["a"], fun _ => [], fun _ => 0, []⟩ "a"
    ((dumpsInfo ⟨"destroyApp", [("name", .str "a")]⟩).getD "")
    ⟨"destroyApp", [("name", .str "a")]⟩ .destroyApp [("name", .str "a")]
    rfl rfl rfl rfl

/-- The serialised failure `QiwiscallResult` delivered when the call name
is not an attribute of the host object. -/
def attrRejectMsg (call : String) : String :=
  (dumpsResult ⟨true, false, .null,
    some (reprError (.attributeError ("Qiwis object has no attribute " ++ call)))⟩).getD ""

/-- C10: a public call name that is not an attribute of the host object
(not in `qiwisPublicAttrs`, the host's full public attribute surface,
so that real `getattr` genuinely raises) makes the lookup raise
`AttributeError`; no host method is executed, the registry / bus state
is unchanged, and the live sender receives a Call Result with
`done=true`, `success=false` carrying the lookup error's string
representation, keyed by the original envelope. -/
theorem C10_unknown_call_name (st : QiwisState) (sender msg : String)
    (reply : Reply) (info : QiwiscallInfo)
    (hload : loadsInfo msg = Except.ok info)
    (hpub : pyStartsWith info.call "_" = false)
    (hattr : info.call ∉ qiwisPublicAttrs)
    (hsender : sender ∈ st.apps) :
    Qiwis.handleQiwiscall st sender msg reply =
      (st, Except.error (PyError.attributeError
        ("Qiwis object has no attribute " ++ info.call))) ∧
    Qiwis.qiwiscall st sender msg reply =
      (st, Except.ok (msg, attrRejectMsg info.call)) := by
  have h1 : Qiwis.handleQiwiscall st sender msg reply =
      (st, Except.error (PyError.attributeError
        ("Qiwis object has no attribute " ++ info.call))) := by
    simp only [Qiwis.handleQiwiscall, hload, hpub,
      getattrQiwis_missing info.call hattr, Bool.false_eq_true, if_false]
  refine ⟨h1, ?_⟩
  simp only [Qiwis.qiwiscall, h1]
  rw [if_pos hsender]
  rfl

/-- Witness for C10: a concrete `noSuchFeature` call at a live sender. -/
theorem C10_unknown_call_name_witness :
    loadsInfo ((dumpsInfo ⟨"noSuchFeature", []⟩).getD "") =
      Except.ok ⟨"noSuchFeature", []⟩ ∧
    "noSuchFeature" ∉ qiwisPublicAttrs ∧
    (pyStartsWith "noSuchFeature" "_" = false) ∧
    "a" ∈ ["a"] ∧
    Qiwis.qiwiscall ⟨["a"], fun _ => [], fun _ => 0, []⟩ "a"
      ((dumpsInfo ⟨"noSuchFeature", []⟩).getD "") .ok =
      (⟨["a"], fun _ => [], fun _ => 0, []⟩,
        Except.ok ((dumpsInfo ⟨"noSuchFeature", []⟩).getD "",
          attrRejectMsg "noSuchFeature")) := by
  refine ⟨rfl, by decide, rfl, by decide, ?_⟩
  exact (C10_unknown_call_name ⟨["a"], fun _ => [], fun _ => 0, []⟩ "a"
    ((dumpsInfo ⟨"noSuchFeature", []⟩).getD "") .ok ⟨"noSuchFeature", []⟩
    rfl rfl (by decide) (by decide)).2

/-- C3 counterexample: the claim says every handled host-call's
serialised result "is delivered to the sender keyed by the original
envelope string", but a confirmed `subscriberNames` call -- steps 1-5
succeed and the success result is built -- returns a Python `set`, and
`dumps(result)` then raises `TypeError` (a set is not JSON
serialisable, contradicting the `QiwiscallResult.value` docstring), so
the exception escapes `_qiwiscall` and nothing is ever delivered to the
live sender. -/
theorem C3_counterexample :
    (Qiwis.handleQiwiscall
        ⟨["a"], fun c => if c = "ch" then ["b"] else [], fun _ => 0, []⟩ "a"
        ((dumpsInfo ⟨"subscriberNames", [("channel", .str "ch")]⟩).getD "") .ok).2 =
      Except.ok (.pyset ["b"]) ∧
    Qiwis.qiwiscall
        ⟨["a"], fun c => if c = "ch" then ["b"] else [], fun _ => 0, []⟩ "a"
        ((dumpsInfo ⟨"subscriberNames", [("channel", .str "ch")]⟩).getD "") .ok =
      (⟨["a"], fun c => if c = "ch" then ["b"] else [], fun _ => 0, []⟩,
        Except.error (PyError.typeError "Object of type set is not JSON serializable")) :=
  ⟨rfl, rfl⟩

/-- C3 (amended): for every handled host-call the built Call Result has
`done=true`; when steps 1-5 all succeed it has `success=true` and
`value` equal to the invoked method's return value, serialised first
when that value is itself a `Serializable`; on any failure from steps
1-5 it has `success=false` and `error` equal to the string
representation of the exception; and the serialised result is delivered
to the sender keyed by the original envelope string, provided the
sender is still registered when the emission runs and the result value
is JSON-serialisable (see the counterexample for the `set`-valued
`subscriberNames`, and C2 for the deregistered-sender case). -/
theorem C3_result_packaging (st : QiwisState) (sender msg : String)
    (reply : Reply) :
    (Qiwis.mkQiwiscallResult (Qiwis.handleQiwiscall st sender msg reply).2).done =
      true ∧
    (∀ v, (Qiwis.handleQiwiscall st sender msg reply).2 = Except.ok v →
      Qiwis.mkQiwiscallResult (Qiwis.handleQiwiscall st sender msg reply).2 =
        ⟨true, true, Qiwis.serializeReturn v, none⟩) ∧
    (∀ e, (Qiwis.handleQiwiscall st sender msg reply).2 = Except.error e →
      Qiwis.mkQiwiscallResult (Qiwis.handleQiwiscall st sender msg reply).2 =
        ⟨true, false, .null, some (reprError e)⟩) ∧
    (∀ out, sender ∈ (Qiwis.handleQiwiscall st sender msg reply).1.apps →
      dumpsResult (Qiwis.mkQiwiscallResult
        (Qiwis.handleQiwiscall st sender msg reply).2) = some out →
      Qiwis.qiwiscall st sender msg reply =
        ((Qiwis.handleQiwiscall st sender msg reply).1, Except.ok (msg, out))) := by
  refine ⟨?_, ?_, ?_, ?_⟩
  · cases h : (Qiwis.handleQiwiscall st sender msg reply).2 <;>
      simp [Qiwis.mkQiwiscallResult]
  · intro v hv
    rw [hv]
    rfl
  · intro e he
    rw [he]
    rfl
  · intro out hs hd
    simp only [Qiwis.qiwiscall]
    rw [if_pos hs, hd]

/-- Witness for C3: a confirmed `subscribe` qiwiscall from the live app
`a` runs end to end; the returned value is `None`, the success result is
serialised and delivered keyed by the original envelope. -/
theorem C3_result_packaging_witness :
    (Qiwis.handleQiwiscall ⟨["a"], fun _ => [], fun _ => 0, []⟩ "a"
      ((dumpsInfo ⟨"subscribe",
        [("app", .str "a"), ("channel", .str "ch")]⟩).getD "") .ok).2 =
      Except.ok PyVal.null ∧
    "a" ∈ (Qiwis.handleQiwiscall ⟨["a"], fun _ => [], fun _ => 0, []⟩ "a"
      ((dumpsInfo ⟨"subscribe",
        [("app", .str "a"), ("channel", .str "ch")]⟩).getD "") .ok).1.apps ∧
    dumpsResult (Qiwis.mkQiwiscallResult (Except.ok PyVal.null)) =
      some ((dumpsResult ⟨true, true, .null, none⟩).getD "") ∧
    Qiwis.qiwiscall ⟨["a"], fun _ => [], fun _ => 0, []⟩ "a"
      ((dumpsInfo ⟨"subscribe",
        [("app", .str "a"), ("channel", .str "ch")]⟩).getD "") .ok =
      ((Qiwis.handleQiwiscall ⟨["a"], fun _ => [], fun _ => 0, []⟩ "a"
        ((dumpsInfo ⟨"subscribe",
          [("app", .str "a"), ("channel", .str "ch")]⟩).getD "") .ok).1,
        Except.ok ((dumpsInfo ⟨"subscribe",
          [("app", .str "a"), ("channel", .str "ch")]⟩).getD "",
          (dumpsResult ⟨true, true, .null, none⟩).getD "")) := by
  refine ⟨rfl, by decide, rfl, ?_⟩
  exact (C3_result_packaging ⟨["a"], fun _ => [], fun _ => 0, []⟩ "a"
    ((dumpsInfo ⟨"subscribe",
      [("app", .str "a"), ("channel", .str "ch")]⟩).getD "") .ok).2.2.2
    ((dumpsResult ⟨true, true, .null, none⟩).getD "") (by decide) rfl

/-- C2: the code does not fail safely when the sender was destroyed
before result delivery.  At this concrete failing input the host-call
itself is handled fine (an `appNames` request, confirmed), but the
delivery line `self._apps[sender].qiwiscallReturned.emit(...)` raises an
uncaught `KeyError` out of `_qiwiscall` because the sender is no longer
in `_apps` -- the claim (and the spec's "must fail safely, logged, not
raised") is violated by the code. -/
theorem C2_destroyed_sender_raises :
    (Qiwis.handleQiwiscall ⟨[], fun _ => [], fun _ => 0, []⟩ "app1"
      ((dumpsInfo ⟨"appNames", []⟩).getD "") .ok).2 = Except.ok (.list []) ∧
    Qiwis.qiwiscall ⟨[], fun _ => [], fun _ => 0, []⟩ "app1"
      ((dumpsInfo ⟨"appNames", []⟩).getD "") .ok =
      (⟨[], fun _ => [], fun _ => 0, []⟩,
        Except.error (PyError.keyError "app1")) :=
  ⟨rfl, rfl⟩

/-- C6: every proxied call (whose envelope is JSON-serialisable, the
well-formedness the Call Envelope data model requires) returns
immediately with a fresh handle -- the next heap index, distinct from
every existing object -- referring to a Call Result with `done=false`
and `success=false`, stored in the pending-results table keyed by the
serialised envelope string, and the envelope is emitted; when an
identical serialised envelope was already pending under some handle
`h0`, the new handle overwrites that entry with a logged warning
(non-fatal), and the arriving response resolves only the newest handle:
`update_result` writes the received fields into the fresh handle while
the displaced handle's object stays untouched. -/
theorem C6_proxy_call (ps : ProxyState) (call : String)
    (args : List (String × PyVal)) (msg : String)
    (hmsg : dumpsInfo ⟨call, QiwiscallProxy.serializeArgs args⟩ = some msg) :
    (QiwiscallProxy.proxyCall ps call args).2 = Except.ok ps.heap.length ∧
    (QiwiscallProxy.proxyCall ps call args).1.heap.get? ps.heap.length =
      some ⟨false, false, .null, none⟩ ∧
    lookupAssoc (QiwiscallProxy.proxyCall ps call args).1.results msg =
      some ps.heap.length ∧
    (QiwiscallProxy.proxyCall ps call args).1.emitted = ps.emitted ++ [msg] ∧
    (∀ res, (QiwiscallProxy.update_result (QiwiscallProxy.proxyCall ps call args).1
      msg res true).heap.get? ps.heap.length = some res) ∧
    (∀ h0, lookupAssoc ps.results msg = some h0 →
      (⟨.warning, "Duplicate qiwiscall request: " ++ msg ++
        ", the new result overwrites the previous one"⟩ : LogEntry) ∈
        (QiwiscallProxy.proxyCall ps call args).1.log ∧
      (h0 ≠ ps.heap.length → ∀ res,
        (QiwiscallProxy.update_result (QiwiscallProxy.proxyCall ps call args).1
          msg res true).heap.get? h0 =
          (QiwiscallProxy.proxyCall ps call args).1.heap.get? h0)) := by
  have hps : QiwiscallProxy.proxyCall ps call args =
      ({ heap := ps.heap ++ [⟨false, false, .null, none⟩],
         results := dictInsert ps.results msg ps.heap.length,
         emitted := ps.emitted ++ [msg],
         log := ps.log ++ (match lookupAssoc ps.results msg with
           | some _ => [⟨.warning, "Duplicate qiwiscall request: " ++ msg ++
               ", the new result overwrites the previous one"⟩]
           | none => []) }, Except.ok ps.heap.length) := by
    simp only [QiwiscallProxy.proxyCall, hmsg]
  rw [hps]
  refine ⟨rfl, get_append_singleton ps.heap _, lookupAssoc_dictInsert_self _ _ _,
    rfl, ?_, ?_⟩
  · intro res
    simp only [QiwiscallProxy.update_result, lookupAssoc_dictInsert_self]
    exact get_set_self _ _ _ (by simp)
  · intro h0 hh0
    constructor
    · simp [hh0]
    · intro hne res
      simp only [QiwiscallProxy.update_result, lookupAssoc_dictInsert_self]
      exact get_set_other _ _ _ _ (fun h => hne h.symm)

/-- Witness for C6: on an empty proxy a first `appNames` call creates
handle 0; an identical second call creates the fresh handle 1, logs the
duplicate warning, and the response resolves handle 1 while handle 0
remains pending. -/
theorem C6_proxy_call_witness :
    dumpsInfo ⟨"appNames", QiwiscallProxy.serializeArgs []⟩ =
      some ((dumpsInfo ⟨"appNames", []⟩).getD "") ∧
    lookupAssoc ((QiwiscallProxy.proxyCall ⟨[], [], [], []⟩ "appNames" []).1).results
      ((dumpsInfo ⟨"appNames", []⟩).getD "") = some 0 ∧
    (QiwiscallProxy.proxyCall
      (QiwiscallProxy.proxyCall ⟨[], [], [], []⟩ "appNames" []).1
      "appNames" []).2 = Except.ok 1 ∧
    (QiwiscallProxy.update_result
      (QiwiscallProxy.proxyCall
        (QiwiscallProxy.proxyCall ⟨[], [], [], []⟩ "appNames" []).1
        "appNames" []).1
      ((dumpsInfo ⟨"appNames", []⟩).getD "")
      ⟨true, true, .null, none⟩ true).heap.get? 1 =
      some ⟨true, true, .null, none⟩ ∧
    (QiwiscallProxy.update_result
      (QiwiscallProxy.proxyCall
        (QiwiscallProxy.proxyCall ⟨[], [], [], []⟩ "appNames" []).1
        "appNames" []).1
      ((dumpsInfo ⟨"appNames", []⟩).getD "")
      ⟨true, true, .null, none⟩ true).heap.get? 0 =
      some ⟨false, false, .null, none⟩ := by
  have h := C6_proxy_call
    (QiwiscallProxy.proxyCall ⟨[], [], [], []⟩ "appNames" []).1
    "appNames" [] ((dumpsInfo ⟨"appNames", []⟩).getD "") rfl
  refine ⟨rfl, rfl, h.1, h.2.2.2.2.1 ⟨true, true, .null, none⟩, ?_⟩
  have h0 := (h.2.2.2.2.2 0 rfl).2 (by decide) ⟨true, true, .null, none⟩
  rw [h0]
  rfl
